import Mathlib

/-!
Verification development for the pfasPBK model-lifecycle pipeline and its
exposure-scenario harness.  The definitions below are shallow embeddings of
`src/scripts/compile_model.py` (the batch pipeline over Antimony models) and
`src/tests/exposure_scenario_tests.py` (the dosing scenarios and the
parametrisation cross-check).  External collaborators (the Antimony
compiler, annotator, validator and simulation engine) are black boxes and
appear as function parameters.
-/

namespace PfasPBK

/-! ### Artifact paths

The scripts derive every artifact name from one stem by suffix substitution
(`Path(...).with_suffix(s)`), so a path is modelled as a stem together with
a suffix. -/

/-- An artifact path: a filename stem plus its suffix, as produced by the
`with_suffix` calls of `compile_model.py`. -/
structure ArtifactPath where
  stem : String
  suffix : String
deriving DecidableEq, Repr

/-- Embedding of `Path(p).with_suffix(s)`: replace the suffix, keep the
stem.  In `compile_model.py` every call site applies this to a path whose
stem is the bare model name. -/
def withSuffix (p : ArtifactPath) (s : String) : ArtifactPath :=
  ⟨p.stem, s⟩

/-- Paths with the same stem and different suffixes are different files. -/
theorem withSuffix_ne (p : ArtifactPath) {a b : String} (h : a ≠ b) :
    withSuffix p a ≠ withSuffix p b := by
  intro hE
  exact h (congrArg ArtifactPath.suffix hE)

/-- A filesystem fragment: each path optionally holds a file content. -/
def FS : Type := ArtifactPath → Option String

/-- Writing a file (creating or overwriting it). -/
def FS.write (fs : FS) (p : ArtifactPath) (c : String) : FS :=
  fun q => if q = p then some c else fs q

theorem FS.write_same (fs : FS) (p : ArtifactPath) (c : String) :
    fs.write p c p = some c := by
  simp [FS.write]

theorem FS.write_other (fs : FS) {p q : ArtifactPath} (c : String) (h : q ≠ p) :
    fs.write p c q = fs q := by
  simp [FS.write, h]

/-! ### Pipeline orchestrator (`src/scripts/compile_model.py`)

The module-level `for` loop (lines 37-73) drives, per `.ant` model file:
compilation (lines 42-44), the annotation stage (lines 46-68) and the
validation stage (lines 70-73).  The loop body contains no exception
handler. -/

/-- The three pipeline stages driven per model by the module-level loop of
`compile_model.py`. -/
inductive Stage where
  | compile
  | annotate
  | validate
deriving DecidableEq, Repr

/-- Observable behaviour of one black-box stage call for one model: it may
return normally (`ok`), return normally after recording errors in the stage
log it was handed (`logged`), or raise a Python exception (`raised`). -/
inductive StageBehavior where
  | ok
  | logged
  | raised
deriving DecidableEq, Repr

/-- Whether a stage call raises an exception. -/
def StageBehavior.raises : StageBehavior → Bool
  | .raised => true
  | _ => false

/-- The stage behaviours of the three black-box calls made for one model. -/
structure ModelRun where
  compileB : StageBehavior
  annotateB : StageBehavior
  validateB : StageBehavior
deriving DecidableEq, Repr

/-- Stages started for model number `i`, in source order, stopping after the
first raising stage; the boolean reports whether some stage raised.  The
loop body of `compile_model.py` has no `try`/`except`, so a raised exception
propagates out of the loop. -/
def runModel (i : ℕ) (m : ModelRun) : List (ℕ × Stage) × Bool :=
  if m.compileB.raises then ([(i, .compile)], true)
  else if m.annotateB.raises then ([(i, .compile), (i, .annotate)], true)
  else ([(i, .compile), (i, .annotate), (i, .validate)], m.validateB.raises)

/-- Batch loop from model index `i` on: an exception raised in any stage of
any model terminates the whole loop (there is no handler). -/
def runBatchAux : ℕ → List ModelRun → List (ℕ × Stage)
  | _, [] => []
  | i, m :: ms =>
    let r := runModel i m
    if r.2 then r.1 else r.1 ++ runBatchAux (i + 1) ms

/-- Trace of stage invocations performed by the batch loop of
`compile_model.py` over the listed source models, in order. -/
def runBatch (ms : List ModelRun) : List (ℕ × Stage) :=
  runBatchAux 0 ms

/-! ### Per-model file effects of the loop body (`compile_model.py` lines 38-73) -/

/-- The external collaborators called by the loop body, black boxes per the
spec: the Antimony-to-SBML compiler (`te.loada` + `exportToSBML`), the
annotations-template generator, the annotator (returning the annotated
document and its log text) and the validator (returning its log text). -/
structure BlackBoxes where
  compileSbml : String → String
  genTemplate : String → String
  annotateDoc : String → Option String → String → String × String
  validateDoc : String → String

/-- Result of one loop iteration: the updated filesystem, whether the
annotations-template branch ran, whether the annotator was invoked, and the
document content written back to the `.sbml` path. -/
structure RunReport where
  fs : FS
  templateGenerated : Bool
  annotatorInvoked : Bool
  persistedDoc : String

/-- One iteration of the batch loop of `compile_model.py` (lines 38-73) for
the `.ant` file `ant_file`, on filesystem `fs`, with `citation` the content
of `./CITATION.cff`.  Line numbers in the comments refer to the script. -/
def processModel (bb : BlackBoxes) (citation : String) (ant_file : ArtifactPath)
    (fs : FS) : RunReport :=
  let sbml_file := withSuffix ant_file ".sbml"
  let antText := (fs ant_file).getD ""
  -- lines 43-44: r = te.loada(ant_file); r.exportToSBML(sbml_file)
  let document := bb.compileSbml antText
  let fs1 := fs.write sbml_file document
  -- lines 48-55: create the annotations csv only if it does not exist
  let annotations_file := withSuffix sbml_file ".annotations.csv"
  let templateMissing := (fs1 annotations_file).isNone
  let fs2 :=
    if templateMissing then fs1.write annotations_file (bb.genTemplate document)
    else fs1
  -- lines 57-68: always annotate and write the annotated SBML file
  let annotations_log_file := withSuffix sbml_file ".annotations.log"
  let annotated_sbml_file := withSuffix sbml_file ".sbml"
  let annotated := bb.annotateDoc document (fs2 annotations_file) citation
  let fs3 := (fs2.write annotations_log_file annotated.2).write annotated_sbml_file annotated.1
  -- lines 70-73: validate the annotated file, writing the validation log
  let validation_log_file := withSuffix sbml_file ".validation.log"
  let fs4 := fs3.write validation_log_file (bb.validateDoc ((fs3 annotated_sbml_file).getD ""))
  { fs := fs4
    templateGenerated := templateMissing
    annotatorInvoked := true
    persistedDoc := annotated.1 }

/-! ### Log file handles (`create_file_logger`, lines 26-33)

The function opens a `logging.FileHandler` on the log file (mode `w+`,
truncating) and registers it on a fresh logger.  Nothing in
`compile_model.py` ever closes a handler, so in this embedding opening a
log adds its path to the list of open handles and no operation removes
one. -/

/-- Embedding of `create_file_logger`: its only effect on the handle state
is to open (and keep open) a handle on `logfile`. -/
def create_file_logger (h : List ArtifactPath) (logfile : ArtifactPath) :
    List ArtifactPath :=
  logfile :: h

/-- Handle state after the annotation stage of the model with SBML path
`sbml_file` (line 60 opens the annotations log). -/
def annotationStageHandles (h : List ArtifactPath) (sbml_file : ArtifactPath) :
    List ArtifactPath :=
  create_file_logger h (withSuffix sbml_file ".annotations.log")

/-- Handle state after the validation stage of the model with SBML path
`sbml_file` (line 72 opens the validation log). -/
def validationStageHandles (h : List ArtifactPath) (sbml_file : ArtifactPath) :
    List ArtifactPath :=
  create_file_logger h (withSuffix sbml_file ".validation.log")

/-- Handle state after one full loop iteration: the annotation stage runs,
then the validation stage. -/
def processModelHandles (h : List ArtifactPath) (sbml_file : ArtifactPath) :
    List ArtifactPath :=
  validationStageHandles (annotationStageHandles h sbml_file) sbml_file

/-- Handle state after the whole batch loop over the given SBML paths. -/
def runBatchHandles (h : List ArtifactPath) : List ArtifactPath → List ArtifactPath
  | [] => h
  | b :: bs => runBatchHandles (processModelHandles h b) bs

/-! ### Dosing event scheduler (`exposure_scenario_tests.py`, lines 51-79)

The scenario `test_daily_oral_bolus` installs a repeating daily oral dose
through the roadrunner editing API.  The positional arguments of
`rr_model.addEvent(eid, useValuesFromTriggerTime, trigger, forceRegenerate)`
and `rr_model.addEventAssignment(eid, vid, formula, forceRegenerate)` are
those of the roadrunner API. -/

/-- A roadrunner event as installed by `addEvent` and `addEventAssignment`
(lines 72-74 of the test module). -/
structure RRDosingEvent where
  eid : String
  useValuesFromTriggerTime : Bool
  trigger : String
  target : String
  assignment : String
deriving DecidableEq, Repr

/-- The dosing event built at lines 72-74:
`addEvent(eid, False, f"time % 1 == 0 && time < {days_of_exposure}", False)`
then `addEventAssignment(eid, input_id, f"{input_id} + {daily_intake} * BW",
False)`. -/
def mkDailyOralExposureEvent (input_id : String) (daily_intake : ℕ)
    (days_of_exposure : ℕ) : RRDosingEvent :=
  { eid := "oral_daily_exposure"
    useValuesFromTriggerTime := false
    trigger := "time % 1 == 0 && time < " ++ toString days_of_exposure
    target := input_id
    assignment := input_id ++ " + " ++ toString daily_intake ++ " * BW" }

/-- Semantics of the trigger formula `time % 1 == 0 && time < D` over
rational simulation time: the time is a whole number of days (fractional
part zero) and lies strictly below the exposure duration. -/
def dailyTriggerHolds (days_of_exposure : ℕ) (t : ℚ) : Prop :=
  Int.fract t = 0 ∧ t < (days_of_exposure : ℚ)

/-- Semantics of the assignment formula `{input_id} + {daily_intake} * BW`:
the dose, scaled by the covariate value, is added to the target amount. -/
def dailyAssignValue (target daily_intake covariate : ℚ) : ℚ :=
  target + daily_intake * covariate

/-- Python `int(x)` on a rational: truncation toward zero. -/
def pyInt (q : ℚ) : ℤ :=
  if 0 ≤ q then ⌊q⌋ else -⌊-q⌋

/-- Round a rational to the nearest integer, ties to the even integer —
the significand rounding step of IEEE-754 round-to-nearest-even. -/
def roundNearestEven (q : ℚ) : ℤ :=
  let f := ⌊q⌋
  let r := q - (f : ℚ)
  if r < 1/2 then f
  else if 1/2 < r then f + 1
  else if f % 2 = 0 then f else f + 1

/-- The IEEE-754 binary64 value nearest to a rational in the normal range
(round to nearest, ties to even): scale the magnitude into the 53-bit
significand window, round that significand to the nearest (even) integer
and scale back.  Subnormals and overflow are not modelled; the quotients
the dosing scheduler forms are far inside the normal range. -/
def roundToDouble (q : ℚ) : ℚ :=
  if 0 < q then
    ((roundNearestEven (q / 2 ^ (Int.log 2 q - 52)) : ℚ)) * 2 ^ (Int.log 2 q - 52)
  else if q < 0 then
    -(((roundNearestEven (-q / 2 ^ (Int.log 2 (-q) - 52)) : ℚ)) * 2 ^ (Int.log 2 (-q) - 52))
  else 0

/-- Line 56 of the test module:
`days_after_exposure = int(days_of_exposure / 10)`.  Python `/` on
integers is IEEE-754 binary64 true division; CPython computes the
correctly rounded double of the exact quotient, so `D / 10` is
`roundToDouble` of the exact ratio, and `int(...)` truncates it toward
zero. -/
def days_after_exposure (days_of_exposure : ℕ) : ℤ :=
  pyInt (roundToDouble ((days_of_exposure : ℚ) / 10))

/-- Line 57 of the test module:
`num_days = days_of_exposure + days_after_exposure`. -/
def num_days (days_of_exposure : ℕ) : ℤ :=
  (days_of_exposure : ℤ) + days_after_exposure days_of_exposure

/-! ### Scenario runner sampling (`exposure_scenario_tests.py`, lines 36 and 79) -/

/-- A `simulate(start, end, points)` request handed to the engine. -/
structure SimulateRequest where
  start : ℚ
  stop : ℚ
  points : ℕ
deriving Repr

/-- The request issued by the scenarios: line 36 is
`simulate(start=0, end=num_days, points=num_days * evaluation_frequency + 1)`
and line 79 is `simulate(0, num_days, evaluation_frequency * num_days + 1)`;
both request `duration * frequency + 1` points over `[0, duration]`. -/
def scenarioSimulateRequest (numDays evaluationFrequency : ℕ) : SimulateRequest :=
  { start := 0
    stop := (numDays : ℚ)
    points := numDays * evaluationFrequency + 1 }

/-- Modelled from the spec: the external simulation engine
(`RoadRunner.simulate`, a black-box collaborator not under `src/`) samples
`points` evenly spaced time points from `start` to `stop`, both endpoints
included (spec section 6, SimulationEngine contract). -/
def engineSampleTimes (req : SimulateRequest) : List ℚ :=
  (List.range req.points).map
    (fun (i : ℕ) =>
      req.start + (i : ℚ) * ((req.stop - req.start) / ((req.points - 1 : ℕ) : ℚ)))

/-! ### Live model state for the exposure scenarios -/

/-- The live roadrunner model state touched by the exposure scenarios:
per-quantity initial amounts, `constant` flags, `boundary` flags, parameter
values and the installed events. -/
structure RRState where
  initAmount : String → ℚ
  constantFlag : String → Bool
  boundaryFlag : String → Bool
  paramValue : String → ℚ
  events : List RRDosingEvent

/-- Embedding of `rr_model.setInitAmount(id, v)`. -/
def RRState.setInitAmount (s : RRState) (id : String) (v : ℚ) : RRState :=
  { s with initAmount := fun q => if q = id then v else s.initAmount q }

/-- Embedding of `rr_model.setConstant(id, b)`. -/
def RRState.setConstant (s : RRState) (id : String) (b : Bool) : RRState :=
  { s with constantFlag := fun q => if q = id then b else s.constantFlag q }

/-- Embedding of `rr_model.setBoundary(id, b)`. -/
def RRState.setBoundary (s : RRState) (id : String) (b : Bool) : RRState :=
  { s with boundaryFlag := fun q => if q = id then b else s.boundaryFlag q }

/-- Modelled from the spec: `load_parametrisation` (defined in the repo's
`tests/helpers.py`, which is not under `src/`) applies every
(parameter, value) pair of the named model instance to the live model
(spec section 4.6, Parametrization Loader); it writes parameter values and
touches nothing else. -/
def RRState.load_parametrisation (s : RRState) (kvs : List (String × ℚ)) : RRState :=
  kvs.foldl
    (fun st kv =>
      { st with paramValue := fun q => if q = kv.1 then kv.2 else st.paramValue q })
    s

/-- Embedding of `addEvent` plus `addEventAssignment`: install the event. -/
def RRState.addDosingEvent (s : RRState) (e : RRDosingEvent) : RRState :=
  { s with events := s.events ++ [e] }

/-- The model state that `test_daily_oral_bolus` (lines 61-75) hands to
`simulate`: initial amount of the input quantity zeroed, its `constant` and
`boundary` flags cleared, the parametrisation applied and the daily dosing
event installed. -/
def dailyOralBolusSetup (s : RRState) (input_id : String)
    (kvs : List (String × ℚ)) (daily_intake days_of_exposure : ℕ) : RRState :=
  (((((s.setInitAmount input_id 0).setConstant input_id false).setBoundary
      input_id false).load_parametrisation kvs).addDosingEvent
    (mkDailyOralExposureEvent input_id daily_intake days_of_exposure))

/-- The model state that `test_single_oral_bolus` (lines 31-33) hands to
`simulate`: initial amount set to the bolus and both flags cleared. -/
def singleOralBolusSetup (s : RRState) (input_species : String) (intake : ℚ) :
    RRState :=
  ((s.setInitAmount input_species intake).setConstant input_species
      false).setBoundary input_species false

/-! ### Parametrisation validator (`exposure_scenario_tests.py`, lines 89-112)

`test_parametrisation` builds the model's parameter vocabulary and checks
every row of every parametrisation file against it, grouped by the
`idModelInstance` column.  Note two behaviours of the source that matter
below: `assertIn` (line 108) raises at the first offending row, aborting
the test; and line 105 rebinds `df` to the filtered frame, so the next
instance of the loop filters the frame already restricted to the previous
instance. -/

/-- A `libsbml` parameter as observed by the test: its id and its optional
`constant` attribute.  `isSetConstant()` is true exactly when the attribute
is set, whatever its value. -/
structure SbmlParameter where
  id : String
  constantAttr : Option Bool
deriving DecidableEq, Repr

/-- Embedding of `param.isSetConstant()`. -/
def SbmlParameter.isSetConstant (p : SbmlParameter) : Bool :=
  p.constantAttr.isSome

/-- Lines 95-99: collect `param.getId()` for every parameter whose
`constant` attribute is set (regardless of the attribute's value). -/
def model_params (ps : List SbmlParameter) : List String :=
  (ps.filter (fun p => p.isSetConstant)).map (fun p => p.id)

/-- One row of a parametrisation CSV as read by the test: the
`idModelInstance` and `Parameter` columns. -/
structure ParamRow where
  idModelInstance : String
  Parameter : String
deriving DecidableEq, Repr

/-- Embedding of `df['idModelInstance'].unique()` (line 103): the distinct
instance identifiers in first-occurrence order. -/
def uniqueInstances (rows : List ParamRow) : List String :=
  rows.foldl
    (fun acc r =>
      if acc.contains r.idModelInstance then acc else acc ++ [r.idModelInstance])
    []

/-- Embedding of Python `str.strip()`: remove leading and trailing
whitespace (line 109 applies it to the `Parameter` cell). -/
def pyStrip (s : String) : String :=
  ⟨((s.data.dropWhile Char.isWhitespace).reverse.dropWhile Char.isWhitespace).reverse⟩

/-- The first row of `rows` whose stripped `Parameter` is not among
`params` — the row at which `assertIn` (line 108) raises. -/
def firstBadRow (params : List String) (rows : List ParamRow) : Option ParamRow :=
  rows.find? (fun r => !(params.contains (pyStrip r.Parameter)))

/-- The instance loop of `test_parametrisation` (lines 104-112).  Line 105
rebinds `df` to the frame filtered by the current instance id, and that
rebound frame is what the next iteration filters; `assertIn` aborts the
test at the first offending row (`Except.error` carries that row). -/
def checkInstances (params : List String) :
    List String → List ParamRow → Except ParamRow Unit
  | [], _ => .ok ()
  | iid :: rest, df =>
    let df2 := df.filter (fun r => r.idModelInstance == iid)
    match firstBadRow params df2 with
    | some r => .error r
    | none => checkInstances params rest df2

/-- `test_parametrisation` restricted to a single parametrisation file:
build the vocabulary from the model's parameters (lines 95-99), then run
the instance loop over the file's rows. -/
def test_parametrisation_file (ps : List SbmlParameter) (rows : List ParamRow) :
    Except ParamRow Unit :=
  checkInstances (model_params ps) (uniqueInstances rows) rows

/-! ## Theorems -/

/-- A stage behaviour other than `raised` does not raise. -/
theorem StageBehavior.raises_eq_false {s : StageBehavior} (h : s ≠ .raised) :
    s.raises = false := by
  cases s with
  | ok => rfl
  | logged => rfl
  | raised => exact absurd rfl h

/-- When no stage of a model raises, the loop body runs all three stages of
that model and the loop continues. -/
theorem runModel_no_raise (i : ℕ) (m : ModelRun) (h1 : m.compileB ≠ .raised)
    (h2 : m.annotateB ≠ .raised) (h3 : m.validateB ≠ .raised) :
    runModel i m = ([(i, .compile), (i, .annotate), (i, .validate)], false) := by
  unfold runModel
  rw [StageBehavior.raises_eq_false h1, StageBehavior.raises_eq_false h2,
    StageBehavior.raises_eq_false h3]
  simp

/-- If no stage of any listed model raises, every stage of every model is
executed by the batch loop started at index `k`. -/
theorem runBatchAux_mem_of_no_raise (ms : List ModelRun)
    (h : ∀ m ∈ ms,
      m.compileB ≠ .raised ∧ m.annotateB ≠ .raised ∧ m.validateB ≠ .raised) :
    ∀ k j, j < ms.length → ∀ s, (k + j, s) ∈ runBatchAux k ms := by
  induction ms with
  | nil =>
    intro k j hj
    simp at hj
  | cons m rest ih =>
    intro k j hj s
    have hm := h m (List.mem_cons_self m rest)
    have hrest : ∀ m2 ∈ rest,
        m2.compileB ≠ .raised ∧ m2.annotateB ≠ .raised ∧ m2.validateB ≠ .raised :=
      fun m2 hm2 => h m2 (List.mem_cons_of_mem m hm2)
    show (k + j, s) ∈
      (let r := runModel k m
       if r.2 then r.1 else r.1 ++ runBatchAux (k + 1) rest)
    rw [runModel_no_raise k m hm.1 hm.2.1 hm.2.2]
    simp only [if_neg (by simp : ¬ (false = true))]
    cases j with
    | zero =>
      apply List.mem_append_left
      cases s <;> simp
    | succ j2 =>
      apply List.mem_append_right
      have hj2 : j2 < rest.length := by
        simpa [Nat.succ_lt_succ_iff] using hj
      have := ih hrest (k + 1) j2 hj2 s
      have hk : k + (j2 + 1) = k + 1 + j2 := by omega
      rw [hk]
      exact this

/-- C1, amended: a stage failure that the black-box stage merely records in
its per-stage log (without raising an exception) does not prevent the
remaining stages of that model nor any stage of any subsequent model: when
no stage of any model raises, every (model, stage) pair is executed.  The
orchestrator itself installs no containment, so this only holds in the
absence of raised exceptions (see the counterexample). -/
theorem batch_runs_all_stages_when_no_raise (ms : List ModelRun)
    (h : ∀ m ∈ ms,
      m.compileB ≠ .raised ∧ m.annotateB ≠ .raised ∧ m.validateB ≠ .raised)
    (i : ℕ) (hi : i < ms.length) (s : Stage) :
    (i, s) ∈ runBatch ms := by
  have := runBatchAux_mem_of_no_raise ms h 0 i hi s
  simpa [runBatch] using this

/-- Witness for `batch_runs_all_stages_when_no_raise`: with a logged (not
raised) annotation failure in the first model, the second model's
compilation still runs. -/
theorem batch_runs_all_stages_when_no_raise_witness :
    (1, Stage.compile) ∈ runBatch [⟨.ok, .logged, .ok⟩, ⟨.ok, .ok, .ok⟩] :=
  batch_runs_all_stages_when_no_raise [⟨.ok, .logged, .ok⟩, ⟨.ok, .ok, .ok⟩]
    (by decide) 1 (by decide) Stage.compile

/-- C1, counterexample: with two models where the first model's annotation
stage raises, the loop (which has no exception handler) executes only the
first model's compile and annotate calls: the first model's validation and
the whole second model never run, refuting the claim that a failure raised
during the Annotation Stage does not prevent them. -/
theorem batch_not_fault_isolated_cex :
    runBatch [⟨.ok, .raised, .ok⟩, ⟨.ok, .ok, .ok⟩]
        = [(0, .compile), (0, .annotate)]
    ∧ (0, Stage.validate) ∉ runBatch [⟨.ok, .raised, .ok⟩, ⟨.ok, .ok, .ok⟩]
    ∧ (1, Stage.compile) ∉ runBatch [⟨.ok, .raised, .ok⟩, ⟨.ok, .ok, .ok⟩] :=
  ⟨by decide, by decide, by decide⟩

/-- C9, counterexample: once the validation stage of a model has begun (its
logger is open), the annotation stage's log handle is still among the open
handles — `compile_model.py` never closes a handler, so a log file does
remain open across the stage boundary. -/
theorem log_handle_open_across_stage_cex :
    (⟨"PBK_PFAS", ".annotations.log"⟩ : ArtifactPath) ∈
      validationStageHandles
        (annotationStageHandles [] ⟨"PBK_PFAS", ".sbml"⟩)
        ⟨"PBK_PFAS", ".sbml"⟩ := by
  decide

/-- No handle is ever closed during the batch. -/
theorem runBatchHandles_mono (bs : List ArtifactPath) :
    ∀ (h : List ArtifactPath) (p : ArtifactPath), p ∈ h → p ∈ runBatchHandles h bs := by
  induction bs with
  | nil =>
    intro h p hp
    simpa [runBatchHandles] using hp
  | cons b rest ih =>
    intro h p hp
    show p ∈ runBatchHandles (processModelHandles h b) rest
    apply ih
    exact List.mem_cons_of_mem _ (List.mem_cons_of_mem _ hp)

/-- C9, amended: each stage opens a fresh (truncated) log handle, but no
handle is ever released during the run: every handle open before the batch,
and both stage log handles of every processed model, are still open when
the batch loop finishes. -/
theorem log_handles_never_released (bs : List ArtifactPath) (h : List ArtifactPath) :
    (∀ p ∈ h, p ∈ runBatchHandles h bs)
    ∧ ∀ b ∈ bs,
        withSuffix b ".annotations.log" ∈ runBatchHandles h bs
        ∧ withSuffix b ".validation.log" ∈ runBatchHandles h bs := by
  induction bs generalizing h with
  | nil =>
    refine ⟨fun p hp => by simpa [runBatchHandles] using hp, ?_⟩
    intro b hb
    simp at hb
  | cons b rest ih =>
    refine ⟨fun p hp => runBatchHandles_mono (b :: rest) h p hp, ?_⟩
    intro b2 hb2
    rcases List.mem_cons.mp hb2 with hb2 | hb2
    · subst hb2
      constructor
      · show withSuffix b2 ".annotations.log" ∈
          runBatchHandles (processModelHandles h b2) rest
        apply runBatchHandles_mono
        exact List.mem_cons_of_mem _ (List.mem_cons_self _ _)
      · show withSuffix b2 ".validation.log" ∈
          runBatchHandles (processModelHandles h b2) rest
        apply runBatchHandles_mono
        exact List.mem_cons_self _ _
    · exact (ih (processModelHandles h b)).2 b2 hb2

/-- Witness for `log_handles_never_released`: a handle open before the
batch is still open after it. -/
theorem log_handles_never_released_witness :
    (⟨"old", ".log"⟩ : ArtifactPath) ∈
      runBatchHandles [⟨"old", ".log"⟩] [⟨"PBK_PFAS", ".sbml"⟩] :=
  (log_handles_never_released [⟨"PBK_PFAS", ".sbml"⟩] [⟨"old", ".log"⟩]).1
    ⟨"old", ".log"⟩ (by decide)

/-- C2 (code bug): for a parametrisation file whose instance `A` has only
the declared row `BW` and whose instance `B` has the undeclared row
`XYZ_unknown`, `test_parametrisation` passes — line 105 rebinds `df` to the
frame filtered to instance `A`, so instance `B` filters that frame, gets no
rows, and its offending row is never examined.  The second conjunct shows
the row is genuinely offending when instance `B`'s own rows are checked
against the vocabulary. -/
theorem second_instance_bad_row_passes :
    test_parametrisation_file [⟨"BW", some true⟩]
        [⟨"A", "BW"⟩, ⟨"B", "XYZ_unknown"⟩] = .ok ()
    ∧ firstBadRow (model_params [⟨"BW", some true⟩]) [⟨"B", "XYZ_unknown"⟩]
        = some ⟨"B", "XYZ_unknown"⟩ :=
  ⟨rfl, rfl⟩

/-- C3, counterexample: the dosing event installed by
`test_daily_oral_bolus` passes `False` as the `useValuesFromTriggerTime`
argument of `addEvent` (line 73), so the flag is not set. -/
theorem useValuesFromTriggerTime_not_set_cex :
    ¬ ((mkDailyOralExposureEvent "AGut" 1 10).useValuesFromTriggerTime = true) := by
  decide

/-- C3, amended: for every dosing event the scheduler installs, the
`useValuesFromTriggerTime` flag is passed as `False`, so the dose
assignment `target + dose * covariate` uses the covariate's value at
assignment-evaluation time (which coincides with trigger time here only
because the event has no delay). -/
theorem daily_event_uses_assignment_time_values (input_id : String)
    (daily_intake days_of_exposure : ℕ) :
    (mkDailyOralExposureEvent input_id daily_intake
        days_of_exposure).useValuesFromTriggerTime = false :=
  rfl

/-- C10: for a model whose parameters have pairwise distinct ids, a
parameter's id belongs to the vocabulary built at lines 95-99 exactly when
its `constant` attribute is set — regardless of the attribute's value. -/
theorem vocabulary_iff_constant_attr_set (ps : List SbmlParameter)
    (hnd : (ps.map (fun p => p.id)).Nodup) (p : SbmlParameter) (hp : p ∈ ps) :
    p.id ∈ model_params ps ↔ p.isSetConstant = true := by
  constructor
  · intro hmem
    obtain ⟨q, hq, hid⟩ := List.mem_map.mp hmem
    have hq2 := List.mem_filter.mp hq
    have : q = p := List.inj_on_of_nodup_map hnd hq2.1 hp hid
    rw [← this]
    exact hq2.2
  · intro hc
    apply List.mem_map.mpr
    exact ⟨p, List.mem_filter.mpr ⟨hp, hc⟩, rfl⟩

/-- Witness for `vocabulary_iff_constant_attr_set`: a parameter declared
with `constant=false` (attribute set) is in the vocabulary, while (shown
directly) a parameter whose attribute is unset is not. -/
theorem vocabulary_iff_constant_attr_set_witness :
    "PX" ∈ model_params [⟨"BW", some true⟩, ⟨"PX", some false⟩, ⟨"PY", none⟩]
    ∧ "PY" ∉ model_params [⟨"BW", some true⟩, ⟨"PX", some false⟩, ⟨"PY", none⟩] :=
  ⟨(vocabulary_iff_constant_attr_set
      [⟨"BW", some true⟩, ⟨"PX", some false⟩, ⟨"PY", none⟩]
      (by decide) ⟨"PX", some false⟩ (by decide)).mpr rfl,
   by decide⟩

/-- A nonnegative rational with zero fractional part that is below `D` is
the cast of a natural number below `D`. -/
theorem dailyTriggerHolds_iff (D : ℕ) (t : ℚ) (ht : 0 ≤ t) :
    dailyTriggerHolds D t ↔ ∃ n : ℕ, n < D ∧ t = (n : ℚ) := by
  constructor
  · rintro ⟨hf, hlt⟩
    have h3 := Int.floor_add_fract t
    rw [hf, add_zero] at h3
    have hfl : 0 ≤ ⌊t⌋ := Int.floor_nonneg.mpr ht
    have h4 : ((⌊t⌋.toNat : ℤ) : ℚ) = t := by
      rw [Int.toNat_of_nonneg hfl]
      exact h3
    refine ⟨⌊t⌋.toNat, ?_, ?_⟩
    · have h5 : ((⌊t⌋.toNat : ℤ) : ℚ) < (D : ℚ) := by rw [h4]; exact hlt
      exact_mod_cast h5
    · exact_mod_cast h4.symm
  · rintro ⟨n, hn, rfl⟩
    exact ⟨Int.fract_natCast n, by exact_mod_cast hn⟩

/-- C5: the event built by the scheduler has the trigger formula
`time % 1 == 0 && time < D` and the assignment formula
`input_id + daily_intake * BW`; under the trigger semantics, the
nonnegative trigger times for `D = 10` are exactly the whole days
0, 1, ..., 9 — ten trigger opportunities. -/
theorem daily_trigger_scope (input_id : String) (daily_intake D : ℕ)
    (t : ℚ) (ht : 0 ≤ t) :
    (mkDailyOralExposureEvent input_id daily_intake D).trigger
        = "time % 1 == 0 && time < " ++ toString D
    ∧ (mkDailyOralExposureEvent input_id daily_intake D).assignment
        = input_id ++ " + " ++ toString daily_intake ++ " * BW"
    ∧ (dailyTriggerHolds D t ↔ ∃ n : ℕ, n < D ∧ t = (n : ℚ))
    ∧ (dailyTriggerHolds 10 t ↔
        t ∈ (Finset.range 10).image (fun n : ℕ => (n : ℚ)))
    ∧ ((Finset.range 10).image (fun n : ℕ => (n : ℚ))).card = 10 := by
  refine ⟨rfl, rfl, dailyTriggerHolds_iff D t ht, ?_, ?_⟩
  · rw [dailyTriggerHolds_iff 10 t ht]
    simp only [Finset.mem_image, Finset.mem_range]
    constructor
    · rintro ⟨n, hn, rfl⟩
      exact ⟨n, hn, rfl⟩
    · rintro ⟨n, hn, rfl⟩
      exact ⟨n, hn, rfl⟩
  · rw [Finset.card_image_of_injective _ Nat.cast_injective, Finset.card_range]

/-- Witness for `daily_trigger_scope`: at the concrete time 3 the trigger
of the 10-day exposure fires (3 is a whole day below 10). -/
theorem daily_trigger_scope_witness :
    dailyTriggerHolds 10 (3 : ℚ) :=
  ((daily_trigger_scope "AGut" 1 10 3 (by norm_num)).2.2.1).mpr
    ⟨3, by norm_num, by norm_num⟩

/-- Rounding to the nearest integer moves a rational by at most one
half. -/
theorem roundNearestEven_sub_le (q : ℚ) : |(roundNearestEven q : ℚ) - q| ≤ 1/2 := by
  have hfl := Int.floor_le q
  have hfu := Int.lt_floor_add_one q
  simp only [roundNearestEven]
  rcases lt_trichotomy (q - (⌊q⌋ : ℚ)) (1/2) with h | h | h
  · rw [if_pos h, abs_le]
    constructor <;> linarith
  · rw [if_neg (by linarith), if_neg (by linarith)]
    split_ifs with he
    · rw [abs_le]
      constructor <;> linarith
    · rw [abs_le]
      constructor <;> push_cast <;> linarith
  · rw [if_neg (by linarith), if_pos h, abs_le]
    constructor <;> push_cast <;> linarith

/-- The binary64 rounding error of a positive rational is at most half an
ulp, `2 ^ (Int.log 2 q - 52) / 2`. -/
theorem roundToDouble_sub_le {q : ℚ} (hq : 0 < q) :
    |roundToDouble q - q| ≤ 2 ^ (Int.log 2 q - 52) / 2 := by
  have h2e : (0:ℚ) < 2 ^ (Int.log 2 q - 52) := by positivity
  have hne : ((2:ℚ) ^ (Int.log 2 q - 52)) ≠ 0 := ne_of_gt h2e
  simp only [roundToDouble, if_pos hq]
  have hstep : (roundNearestEven (q / 2 ^ (Int.log 2 q - 52)) : ℚ)
        * 2 ^ (Int.log 2 q - 52) - q
      = ((roundNearestEven (q / 2 ^ (Int.log 2 q - 52)) : ℚ)
          - q / 2 ^ (Int.log 2 q - 52)) * 2 ^ (Int.log 2 q - 52) := by
    rw [sub_mul, div_mul_cancel₀ q hne]
  rw [hstep, abs_mul, abs_of_pos h2e]
  calc |(roundNearestEven (q / 2 ^ (Int.log 2 q - 52)) : ℚ)
        - q / 2 ^ (Int.log 2 q - 52)| * 2 ^ (Int.log 2 q - 52)
      ≤ (1/2) * 2 ^ (Int.log 2 q - 52) :=
        mul_le_mul_of_nonneg_right (roundNearestEven_sub_le _) (le_of_lt h2e)
    _ = 2 ^ (Int.log 2 q - 52) / 2 := by ring

/-- A positive rational below `2 ^ 50` has binary exponent at most 49. -/
theorem log2_le_49_of_lt {q : ℚ} (hq : 0 < q) (h : q < 2 ^ (50:ℤ)) :
    Int.log 2 q ≤ 49 := by
  have := (Int.lt_zpow_iff_log_lt (b := 2) (by norm_num) hq).mp h
  omega

/-- Positive integers below `2 ^ 50` fit in the 53-bit significand, so
binary64 rounding is exact on them. -/
theorem roundToDouble_natCast {k : ℕ} (hk : 0 < k) (hk2 : (k:ℚ) < 2 ^ (50:ℤ)) :
    roundToDouble (k : ℚ) = k := by
  have hq : (0:ℚ) < (k:ℚ) := by exact_mod_cast hk
  have hlog : Int.log 2 ((k:ℚ)) ≤ 49 := log2_le_49_of_lt hq hk2
  simp only [roundToDouble, if_pos hq]
  obtain ⟨j, hj3, hje⟩ : ∃ j : ℕ, 3 ≤ j ∧ Int.log 2 ((k:ℚ)) - 52 = -(j:ℤ) :=
    ⟨(-(Int.log 2 ((k:ℚ)) - 52)).toNat, by omega, by omega⟩
  rw [hje]
  have hpow : (2:ℚ) ^ (-(j:ℤ)) = ((2:ℚ) ^ j)⁻¹ := by
    rw [zpow_neg, zpow_natCast]
  have hm : (k:ℚ) / 2 ^ (-(j:ℤ)) = ((k * 2 ^ j : ℕ) : ℚ) := by
    rw [hpow, div_eq_mul_inv, inv_inv]
    push_cast
    ring
  rw [hm]
  have hrne : roundNearestEven ((k * 2 ^ j : ℕ) : ℚ) = ((k * 2 ^ j : ℕ) : ℤ) := by
    simp only [roundNearestEven, Int.floor_natCast]
    rw [if_pos (by push_cast; norm_num)]
  rw [hrne, hpow]
  have h2j : ((2:ℚ) ^ j) ≠ 0 := by positivity
  push_cast
  field_simp

/-- C6, amended: for every exposure duration `D` below `10 * 2 ^ 50`
(about 1.1e16 days, covering every duration the test suite uses), the
float computation `int(D / 10)` equals the floor of `D / 10`, hence the
natural-division value `D / 10`, and the total simulated duration is `D`
plus that window.  Beyond that range the double quotient can round across
an integer (see the counterexample at `D = 10 ^ 17 - 1`). -/
theorem dosing_window_law (D : ℕ) (hD : D < 10 * 2 ^ 50) :
    days_after_exposure D = ⌊(D : ℚ) / 10⌋
    ∧ days_after_exposure D = ((D / 10 : ℕ) : ℤ)
    ∧ num_days D = ((D + D / 10 : ℕ) : ℤ) := by
  have hfl : (⌊(D : ℚ) / 10⌋ : ℤ) = ((D / 10 : ℕ) : ℤ) := by
    rw [← Int.natCast_floor_eq_floor (by positivity)]
    rw [show ((10 : ℚ)) = ((10 : ℕ) : ℚ) by norm_num, Nat.floor_div_nat,
      Nat.floor_natCast]
  have h250 : (2:ℕ) ^ 50 = 1125899906842624 := by norm_num
  rw [h250] at hD
  have key : days_after_exposure D = ((D / 10 : ℕ) : ℤ) := by
    rcases Nat.eq_zero_or_pos D with h0 | hpos
    · subst h0
      show pyInt (roundToDouble ((0 : ℚ) / 10)) = ((0 / 10 : ℕ) : ℤ)
      norm_num [roundToDouble, pyInt]
    · obtain ⟨k, r, hkr, hrlt, hkeq⟩ :
          ∃ k r : ℕ, D = 10 * k + r ∧ r < 10 ∧ D / 10 = k :=
        ⟨D / 10, D % 10, by omega, by omega, rfl⟩
      rw [hkeq]
      show pyInt (roundToDouble ((D : ℚ) / 10)) = ((k : ℕ) : ℤ)
      have hklt : (k:ℚ) < 2 ^ (50:ℤ) := by
        have hkn : k < 1125899906842624 := by omega
        have hkq : (k:ℚ) < 1125899906842624 := by exact_mod_cast hkn
        calc (k:ℚ) < 1125899906842624 := hkq
          _ = 2 ^ (50:ℤ) := by norm_num
      rcases Nat.eq_zero_or_pos r with hr0 | hrpos
      · have hkpos : 0 < k := by omega
        have hx : (D:ℚ)/10 = (k:ℚ) := by
          rw [show D = 10 * k from by omega]
          push_cast
          ring
        rw [hx, roundToDouble_natCast hkpos hklt]
        simp [pyInt, Int.floor_natCast, Nat.cast_nonneg]
      · have hx0 : (0:ℚ) < (D:ℚ)/10 := by positivity
        have hxk : (D:ℚ)/10 = (k:ℚ) + (r:ℚ)/10 := by
          rw [show D = 10 * k + r from hkr]
          push_cast
          ring
        have hxlt : (D:ℚ)/10 < 2 ^ (50:ℤ) := by
          have hrq : (r:ℚ) ≤ 9 := by exact_mod_cast (by omega : r ≤ 9)
          have hkq : (k:ℚ) + 1 ≤ 2 ^ (50:ℤ) := by
            have hkn : k + 1 ≤ 1125899906842624 := by omega
            have hkq2 : ((k:ℚ) + 1) ≤ 1125899906842624 := by exact_mod_cast hkn
            calc (k:ℚ) + 1 ≤ 1125899906842624 := hkq2
              _ = 2 ^ (50:ℤ) := by norm_num
          rw [hxk]
          linarith
        have hlog : Int.log 2 ((D:ℚ)/10) ≤ 49 := log2_le_49_of_lt hx0 hxlt
        have herr : |roundToDouble ((D:ℚ)/10) - (D:ℚ)/10| ≤ 1/16 := by
          have h1 := roundToDouble_sub_le hx0
          have h2 : (2:ℚ) ^ (Int.log 2 ((D:ℚ)/10) - 52) ≤ 2 ^ (-3:ℤ) :=
            zpow_le_zpow_right₀ (by norm_num) (by omega)
          have h3 : (2:ℚ) ^ (-3:ℤ) = 1/8 := by norm_num
          rw [h3] at h2
          linarith
        have hrlo : (1:ℚ) ≤ (r:ℚ) := by exact_mod_cast hrpos
        have hrhi : (r:ℚ) ≤ 9 := by exact_mod_cast (by omega : r ≤ 9)
        obtain ⟨he1, he2⟩ := abs_le.mp herr
        have hlo : (k:ℚ) < roundToDouble ((D:ℚ)/10) := by
          have hge : (D:ℚ)/10 ≥ (k:ℚ) + 1/10 := by rw [hxk]; linarith
          linarith
        have hhi : roundToDouble ((D:ℚ)/10) < (k:ℚ) + 1 := by
          have hle : (D:ℚ)/10 ≤ (k:ℚ) + 9/10 := by rw [hxk]; linarith
          linarith
        have h0le : (0:ℚ) ≤ roundToDouble ((D:ℚ)/10) := by
          have hk0 : (0:ℚ) ≤ (k:ℚ) := by positivity
          linarith
        simp only [pyInt, if_pos h0le]
        rw [Int.floor_eq_iff]
        constructor
        · push_cast
          linarith
        · push_cast
          linarith
  refine ⟨key.trans hfl.symm, key, ?_⟩
  show (D : ℤ) + days_after_exposure D = ((D + D / 10 : ℕ) : ℤ)
  rw [key]
  push_cast
  ring

/-- Witness for `dosing_window_law`: the largest duration the test suite
uses, 1000 days, yields a 100-day observation window. -/
theorem dosing_window_law_witness :
    days_after_exposure 1000 = 100 := by
  have h := (dosing_window_law 1000 (by norm_num)).2.1
  norm_num at h
  exact h

/-- C6, counterexample: at `D = 10 ^ 17 - 1` the double nearest to
`D / 10 = 9999999999999999.9` is `10 ^ 16` (doubles are 2 apart at that
magnitude), so the program computes `int(D / 10) = 10 ^ 16` while
`floor(D / 10) = 10 ^ 16 - 1` — the claimed law fails for this
non-negative integer duration. -/
theorem dosing_window_float_cex :
    days_after_exposure 99999999999999999 = 10000000000000000
    ∧ ⌊((99999999999999999 : ℕ) : ℚ) / 10⌋ = 9999999999999999
    ∧ days_after_exposure 99999999999999999 ≠ ⌊((99999999999999999 : ℕ) : ℚ) / 10⌋ := by
  have hcast : ((99999999999999999 : ℕ) : ℚ) = 99999999999999999 := by norm_num
  have hfloor : ⌊((99999999999999999 : ℕ) : ℚ) / 10⌋ = 9999999999999999 := by
    rw [hcast, Int.floor_eq_iff]
    constructor <;> norm_num
  have h1 : days_after_exposure 99999999999999999 = 10000000000000000 := by
    show pyInt (roundToDouble (((99999999999999999 : ℕ) : ℚ) / 10)) = 10000000000000000
    rw [hcast]
    have hq : (0:ℚ) < (99999999999999999 : ℚ) / 10 := by norm_num
    have hlog : Int.log 2 ((99999999999999999 : ℚ) / 10) = 53 := by
      have h1 := (Int.zpow_le_iff_le_log (b := 2) (x := 53) (by norm_num) hq).mp
        (by norm_num)
      have h2 := (Int.lt_zpow_iff_log_lt (b := 2) (x := 54) (by norm_num) hq).mp
        (by norm_num)
      omega
    simp only [roundToDouble, if_pos hq, hlog]
    have he : (53 - 52 : ℤ) = 1 := by norm_num
    rw [he, zpow_one]
    have hdiv : (99999999999999999 : ℚ) / 10 / 2 = 99999999999999999 / 20 := by
      norm_num
    rw [hdiv]
    have hf : ⌊(99999999999999999 : ℚ) / 20⌋ = 4999999999999999 := by
      rw [Int.floor_eq_iff]
      constructor <;> norm_num
    have hrne : roundNearestEven ((99999999999999999 : ℚ) / 20) = 5000000000000000 := by
      simp only [roundNearestEven, hf]
      rw [if_neg (by norm_num), if_pos (by norm_num)]
      norm_num
    rw [hrne]
    have hval : ((5000000000000000 : ℤ) : ℚ) * 2 = 10000000000000000 := by
      norm_num
    rw [hval]
    simp only [pyInt, if_pos (by norm_num : (0:ℚ) ≤ 10000000000000000)]
    rw [Int.floor_eq_iff]
    constructor <;> norm_num
  exact ⟨h1, hfloor, by rw [h1, hfloor]; norm_num⟩

/-- Index-wise closed form of the sample grid the engine returns for the
scenario request: the i-th sample time is `i / f`. -/
theorem engineSampleTimes_get (d f i : ℕ) (hf : 0 < f) (hi : i < d * f + 1) :
    (engineSampleTimes (scenarioSimulateRequest d f))[i]? = some ((i : ℚ) / f) := by
  unfold engineSampleTimes scenarioSimulateRequest
  rw [List.getElem?_map]
  simp only [List.getElem?_range, hi, if_pos, Option.map_some]
  rcases Nat.eq_zero_or_pos d with hd | hd
  · subst hd
    have : i = 0 := by omega
    subst this
    simp
  · have hdq : (d : ℚ) ≠ 0 := (Nat.cast_pos.mpr hd).ne'
    have hfq : (f : ℚ) ≠ 0 := (Nat.cast_pos.mpr hf).ne'
    push_cast
    field_simp
    ring

/-- C7: the scenario runner's request asks for exactly
`duration * frequency + 1` sample points over `[0, duration]`; under the
engine's contract the returned grid has that many points, starts at 0,
ends at `duration`, and consecutive points are `1 / frequency` apart. -/
theorem sampling_law (d f : ℕ) (hf : 0 < f) :
    (scenarioSimulateRequest d f).points = d * f + 1
    ∧ (engineSampleTimes (scenarioSimulateRequest d f)).length = d * f + 1
    ∧ (engineSampleTimes (scenarioSimulateRequest d f))[0]? = some 0
    ∧ (engineSampleTimes (scenarioSimulateRequest d f))[d * f]? = some (d : ℚ)
    ∧ ∀ i : ℕ, i + 1 < d * f + 1 →
        ((engineSampleTimes (scenarioSimulateRequest d f))[i + 1]?).getD 0
          - ((engineSampleTimes (scenarioSimulateRequest d f))[i]?).getD 0
          = 1 / f := by
  have hfq : (f : ℚ) ≠ 0 := (Nat.cast_pos.mpr hf).ne'
  refine ⟨rfl, ?_, ?_, ?_, ?_⟩
  · unfold engineSampleTimes scenarioSimulateRequest
    rw [List.length_map, List.length_range]
  · rw [engineSampleTimes_get d f 0 hf (by omega)]
    norm_num
  · rw [engineSampleTimes_get d f (d * f) hf (by omega)]
    congr 1
    push_cast
    field_simp
  · intro i hi
    rw [engineSampleTimes_get d f (i + 1) hf hi,
      engineSampleTimes_get d f i hf (by omega)]
    simp only [Option.getD_some]
    push_cast
    field_simp

/-- Witness for `sampling_law`: duration 2 at frequency 24 yields exactly
49 sample points, and the last one is time 2. -/
theorem sampling_law_witness :
    (engineSampleTimes (scenarioSimulateRequest 2 24)).length = 49
    ∧ (engineSampleTimes (scenarioSimulateRequest 2 24))[48]? = some (2 : ℚ) := by
  refine ⟨?_, ?_⟩
  · have h := (sampling_law 2 24 (by norm_num)).2.1
    norm_num at h
    exact h
  · have h := (sampling_law 2 24 (by norm_num)).2.2.2.1
    norm_num at h
    exact h

/-- Content of the annotations csv after one loop iteration: the previous
content if the file existed, the freshly generated template otherwise; and
the template branch runs exactly when the file was absent. -/
theorem processModel_annCsv (bb : BlackBoxes) (citation : String)
    (ant_file : ArtifactPath) (fs : FS) :
    (processModel bb citation ant_file fs).fs (withSuffix ant_file ".annotations.csv")
      = some ((fs (withSuffix ant_file ".annotations.csv")).getD
          (bb.genTemplate (bb.compileSbml ((fs ant_file).getD ""))))
    ∧ (processModel bb citation ant_file fs).templateGenerated
      = (fs (withSuffix ant_file ".annotations.csv")).isNone := by
  cases hc : fs (withSuffix ant_file ".annotations.csv") with
  | none =>
    simp only [withSuffix] at hc
    constructor
    · simp [processModel, FS.write, withSuffix, hc]
    · simp [processModel, FS.write, withSuffix, hc]
  | some c =>
    simp only [withSuffix] at hc
    constructor
    · simp [processModel, FS.write, withSuffix, hc]
    · simp [processModel, FS.write, withSuffix, hc]

/-- After every loop iteration, the `.sbml` path holds the document the
annotator produced in that iteration. -/
theorem processModel_sbml (bb : BlackBoxes) (citation : String)
    (ant_file : ArtifactPath) (fs : FS) :
    (processModel bb citation ant_file fs).fs (withSuffix ant_file ".sbml")
      = some (processModel bb citation ant_file fs).persistedDoc := by
  simp [processModel, FS.write, withSuffix]

/-- C4: the annotation stage persists a template only when no file exists
at the namer-derived annotations path — an existing table's content is
untouched by a run and byte-identical across a second run — while the
annotator is invoked and the annotated document is re-persisted to the
`.sbml` path on every run. -/
theorem annotation_stage_idempotent_table (bb : BlackBoxes) (citation : String)
    (ant_file : ArtifactPath) (fs : FS) :
    (∀ c, fs (withSuffix ant_file ".annotations.csv") = some c →
      (processModel bb citation ant_file fs).fs (withSuffix ant_file ".annotations.csv")
        = some c)
    ∧ ((processModel bb citation ant_file fs).templateGenerated = true ↔
        fs (withSuffix ant_file ".annotations.csv") = none)
    ∧ (processModel bb citation ant_file
          ((processModel bb citation ant_file fs).fs)).fs
          (withSuffix ant_file ".annotations.csv")
        = (processModel bb citation ant_file fs).fs
            (withSuffix ant_file ".annotations.csv")
    ∧ (processModel bb citation ant_file
          ((processModel bb citation ant_file fs).fs)).templateGenerated = false
    ∧ (processModel bb citation ant_file fs).annotatorInvoked = true
    ∧ (processModel bb citation ant_file
          ((processModel bb citation ant_file fs).fs)).annotatorInvoked = true
    ∧ (processModel bb citation ant_file fs).fs (withSuffix ant_file ".sbml")
        = some (processModel bb citation ant_file fs).persistedDoc
    ∧ (processModel bb citation ant_file
          ((processModel bb citation ant_file fs).fs)).fs (withSuffix ant_file ".sbml")
        = some (processModel bb citation ant_file
            ((processModel bb citation ant_file fs).fs)).persistedDoc := by
  have h1 := processModel_annCsv bb citation ant_file fs
  have h2 := processModel_annCsv bb citation ant_file
    (processModel bb citation ant_file fs).fs
  refine ⟨?_, ?_, ?_, ?_, rfl, rfl, processModel_sbml bb citation ant_file fs,
    processModel_sbml bb citation ant_file (processModel bb citation ant_file fs).fs⟩
  · intro c hcx
    rw [h1.1, hcx]
    rfl
  · rw [h1.2]
    exact Option.isNone_iff_eq_none
  · rw [h2.1, h1.1]
    rfl
  · rw [h2.2, h1.1]
    rfl

/-- Witness for `annotation_stage_idempotent_table`: a pre-existing,
human-curated annotations table survives a run byte-identically. -/
theorem annotation_stage_idempotent_table_witness :
    (processModel
        ⟨fun s => s, fun s => s, fun d _ _ => (d, "ALOG"), fun _ => "VLOG"⟩
        "CIT" ⟨"m", ".ant"⟩
        (fun p => if p = ⟨"m", ".annotations.csv"⟩ then some "CURATED" else none)).fs
      (withSuffix ⟨"m", ".ant"⟩ ".annotations.csv") = some "CURATED" :=
  (annotation_stage_idempotent_table
      ⟨fun s => s, fun s => s, fun d _ _ => (d, "ALOG"), fun _ => "VLOG"⟩
      "CIT" ⟨"m", ".ant"⟩
      (fun p => if p = ⟨"m", ".annotations.csv"⟩ then some "CURATED" else none)).1
    "CURATED" (by decide)

/-- Applying a parametrisation writes parameter values only: the
`constant` flags are untouched. -/
theorem load_parametrisation_constantFlag (kvs : List (String × ℚ)) :
    ∀ s : RRState, (s.load_parametrisation kvs).constantFlag = s.constantFlag := by
  induction kvs with
  | nil => intro s; rfl
  | cons kv rest ih =>
    intro s
    rw [show RRState.load_parametrisation s (kv :: rest)
        = RRState.load_parametrisation
            { s with paramValue := fun q => if q = kv.1 then kv.2 else s.paramValue q }
            rest
      from rfl]
    rw [ih]

/-- Applying a parametrisation writes parameter values only: the
`boundary` flags are untouched. -/
theorem load_parametrisation_boundaryFlag (kvs : List (String × ℚ)) :
    ∀ s : RRState, (s.load_parametrisation kvs).boundaryFlag = s.boundaryFlag := by
  induction kvs with
  | nil => intro s; rfl
  | cons kv rest ih =>
    intro s
    rw [show RRState.load_parametrisation s (kv :: rest)
        = RRState.load_parametrisation
            { s with paramValue := fun q => if q = kv.1 then kv.2 else s.paramValue q }
            rest
      from rfl]
    rw [ih]

/-- C8: each scenario setup itself clears both the `constant` flag and the
`boundary` flag of the dosing target before simulation, whatever state the
model arrived in — the state handed to `simulate` has both flags false on
the target quantity, in the daily-bolus scenario and in the single-bolus
scenario alike. -/
theorem dosing_target_flags_cleared (s : RRState) (input_id input_species : String)
    (kvs : List (String × ℚ)) (daily_intake days_of_exposure : ℕ) (intake : ℚ) :
    ((dailyOralBolusSetup s input_id kvs daily_intake days_of_exposure).constantFlag
        input_id = false
      ∧ (dailyOralBolusSetup s input_id kvs daily_intake days_of_exposure).boundaryFlag
        input_id = false)
    ∧ ((singleOralBolusSetup s input_species intake).constantFlag input_species = false
      ∧ (singleOralBolusSetup s input_species intake).boundaryFlag input_species
        = false) := by
  refine ⟨⟨?_, ?_⟩, ?_, ?_⟩
  · show ((((s.setInitAmount input_id 0).setConstant input_id false).setBoundary
        input_id false).load_parametrisation kvs).constantFlag input_id = false
    rw [load_parametrisation_constantFlag]
    simp [RRState.setBoundary, RRState.setConstant]
  · show ((((s.setInitAmount input_id 0).setConstant input_id false).setBoundary
        input_id false).load_parametrisation kvs).boundaryFlag input_id = false
    rw [load_parametrisation_boundaryFlag]
    simp [RRState.setBoundary]
  · simp [singleOralBolusSetup, RRState.setBoundary, RRState.setConstant]
  · simp [singleOralBolusSetup, RRState.setBoundary]

end PfasPBK
